import Mathlib

/-!
Shallow embedding of `sdk/python/pulumi_terraform/state/remote_state_reference.py`
(pulumi/pulumi-terraform-bridge, Python SDK for Terraform remote state).

The module defines thirteen backend-argument classes, a `RemoteStateReference`
custom resource whose constructor validates the (backend kind, args) pairing
through a fixed registry, two field-name translation tables, and an output
accessor.  Python objects are modelled as follows: a backend-args instance is
its `props` dictionary together with its class tag (`isinstance` dispatches on
the tag); dictionaries are association lists in insertion order; Python `None`
is the value `PyValue.none`; raising is returning `Except.error`.
-/

set_option autoImplicit false

/-- A Python value as used by this module: `None`, strings, booleans, integers,
lists and string-keyed dictionaries (the `remote` backend nests a dictionary
under `workspaces`). -/
inductive PyValue where
  | none
  | str (s : String)
  | bool (b : Bool)
  | int (n : Int)
  | list (xs : List PyValue)
  | dict (xs : List (String × PyValue))

/-- The exceptions this module can raise: `TypeError` (all explicit `raise`
statements and missing-argument call failures) and `KeyError` (dictionary
subscript on an absent key, as in `get_output`). -/
inductive PyError where
  | typeError (msg : String)
  | keyError (key : String)
deriving DecidableEq

/-- Python truthiness for the values above: `None`, `False`, `0`, empty
strings and empty containers are falsy; everything else is truthy. -/
def PyValue.truthy : PyValue → Bool
  | .none => false
  | .str s => !(s = "")
  | .bool b => b
  | .int n => !(n = 0)
  | .list xs => !xs.isEmpty
  | .dict xs => !xs.isEmpty

/-- Python dictionary item assignment `d[k] = v`: overwrite in place when the
key is present (insertion order preserved), append otherwise. -/
def dictSet (d : List (String × PyValue)) (k : String) (v : PyValue) :
    List (String × PyValue) :=
  if (List.lookup k d).isSome then
    d.map (fun p => if p.1 = k then (k, v) else p)
  else
    d ++ [(k, v)]

/-- The `for key, value in args.props.items(): __props__[key] = value` loop of
`RemoteStateReference.__init__`: item assignments in iteration order. -/
def dictExtend (d : List (String × PyValue)) : List (String × PyValue) → List (String × PyValue)
  | [] => d
  | (k, v) :: rest => dictExtend (dictSet d k v) rest

/-- Python dictionary subscript `d[k]`: the value when present, `KeyError`
otherwise. -/
def pySubscript (d : List (String × PyValue)) (k : String) : Except PyError PyValue :=
  match List.lookup k d with
  | some v => .ok v
  | Option.none => .error (.keyError k)

/-- The `BackendArgs` union: one constructor per backend-argument class, each
carrying the `props` dictionary its `__init__` builds.  `isinstance` tests
dispatch on the constructor. -/
inductive BackendArgs where
  | artifactory (props : List (String × PyValue))
  | azurerm (props : List (String × PyValue))
  | consul (props : List (String × PyValue))
  | etcdv2 (props : List (String × PyValue))
  | etcdv3 (props : List (String × PyValue))
  | gcs (props : List (String × PyValue))
  | http (props : List (String × PyValue))
  | localBackend (props : List (String × PyValue))
  | manta (props : List (String × PyValue))
  | postgres (props : List (String × PyValue))
  | remote (props : List (String × PyValue))
  | s3 (props : List (String × PyValue))
  | swift (props : List (String × PyValue))

/-- The `props` dictionary of a backend-args instance. -/
def BackendArgs.props : BackendArgs → List (String × PyValue)
  | .artifactory p | .azurerm p | .consul p | .etcdv2 p | .etcdv3 p | .gcs p
  | .http p | .localBackend p | .manta p | .postgres p | .remote p | .s3 p
  | .swift p => p

/-- The Python class name of a backend-args instance. -/
def BackendArgs.className : BackendArgs → String
  | .artifactory _ => "ArtifactoryBackendArgs"
  | .azurerm _ => "AzureRMBackendArgs"
  | .consul _ => "ConsulBackendArgs"
  | .etcdv2 _ => "EtcdV2BackendArgs"
  | .etcdv3 _ => "EtcdV3BackendArgs"
  | .gcs _ => "GcsBackendArgs"
  | .http _ => "HttpBackendArgs"
  | .localBackend _ => "LocalBackendArgs"
  | .manta _ => "MantaBackendArgs"
  | .postgres _ => "PostgresBackendArgs"
  | .remote _ => "RemoteBackendArgs"
  | .s3 _ => "S3BackendArgs"
  | .swift _ => "SwiftBackendArgs"

/-- Raised by a Python call that omits a required positional parameter; the
constructor body never runs in that case. -/
def missingArg (name : String) : PyError :=
  .typeError ("missing 1 required positional argument: " ++ name)

/-- Calling `ArtifactoryBackendArgs(repo, subpath, url=None, ...)`.  Required
positional parameters are `Option PyValue` (`none` models omitting the
argument, a call-time `TypeError`); optional parameters default to Python
`None`, so the caller passes the value directly (`PyValue.none` for unset).
The source assigns `props["repo"]` twice with the same value (lines 39-40);
dictionary overwrite makes that a single entry. -/
def ArtifactoryBackendArgs.call (repo subpath : Option PyValue)
    (url username password workspace : PyValue) : Except PyError BackendArgs :=
  match repo, subpath with
  | some r, some sp =>
      .ok (.artifactory [("repo", r), ("subpath", sp), ("url", url),
        ("username", username), ("password", password), ("workspace", workspace)])
  | Option.none, _ => .error (missingArg "repo")
  | _, Option.none => .error (missingArg "subpath")

/-- Calling `AzureRMBackendArgs(storage_account_name, container_name, ...)`. -/
def AzureRMBackendArgs.call (storage_account_name container_name : Option PyValue)
    (key environment endpoint use_msi subscription_id tenant_id msi_endpoint
     sas_token access_key resource_group_name client_id client_secret
     workspace : PyValue) : Except PyError BackendArgs :=
  match storage_account_name, container_name with
  | some san, some cn =>
      .ok (.azurerm [("storage_account_name", san), ("container_name", cn),
        ("key", key), ("environment", environment), ("endpoint", endpoint),
        ("use_msi", use_msi), ("subscription_id", subscription_id),
        ("tenant_id", tenant_id), ("msi_endpoint", msi_endpoint),
        ("sas_token", sas_token), ("access_key", access_key),
        ("resource_group_name", resource_group_name), ("client_id", client_id),
        ("client_secret", client_secret), ("workspace", workspace)])
  | Option.none, _ => .error (missingArg "storage_account_name")
  | _, Option.none => .error (missingArg "container_name")

/-- Calling `ConsulBackendArgs(path, access_token, ...)`. -/
def ConsulBackendArgs.call (path access_token : Option PyValue)
    (address scheme datacenter http_auth gzip ca_file cert_file key_file
     workspace : PyValue) : Except PyError BackendArgs :=
  match path, access_token with
  | some p, some at_ =>
      .ok (.consul [("path", p), ("access_token", at_), ("address", address),
        ("scheme", scheme), ("datacenter", datacenter), ("http_auth", http_auth),
        ("gzip", gzip), ("ca_file", ca_file), ("cert_file", cert_file),
        ("key_file", key_file), ("workspace", workspace)])
  | Option.none, _ => .error (missingArg "path")
  | _, Option.none => .error (missingArg "access_token")

/-- Calling `EtcdV2BackendArgs(path, endpoints, ...)`. -/
def EtcdV2BackendArgs.call (path endpoints : Option PyValue)
    (username password workspace : PyValue) : Except PyError BackendArgs :=
  match path, endpoints with
  | some p, some e =>
      .ok (.etcdv2 [("path", p), ("endpoints", e), ("username", username),
        ("password", password), ("workspace", workspace)])
  | Option.none, _ => .error (missingArg "path")
  | _, Option.none => .error (missingArg "endpoints")

/-- Calling `EtcdV3BackendArgs(endpoints, ...)`.  `prefixOpt` stands for the
Python parameter `prefix`. -/
def EtcdV3BackendArgs.call (endpoints : Option PyValue)
    (username password prefixOpt cacert_path cert_path key_path
     workspace : PyValue) : Except PyError BackendArgs :=
  match endpoints with
  | some e =>
      .ok (.etcdv3 [("endpoints", e), ("username", username),
        ("password", password), ("prefix", prefixOpt),
        ("cacert_path", cacert_path), ("cert_path", cert_path),
        ("key_path", key_path), ("workspace", workspace)])
  | Option.none => .error (missingArg "endpoints")

/-- Calling `GcsBackendArgs(bucket, ...)`. -/
def GcsBackendArgs.call (bucket : Option PyValue)
    (credentials prefixOpt encryption_key workspace : PyValue) :
    Except PyError BackendArgs :=
  match bucket with
  | some b =>
      .ok (.gcs [("bucket", b), ("credentials", credentials),
        ("prefix", prefixOpt), ("encryption_key", encryption_key),
        ("workspace", workspace)])
  | Option.none => .error (missingArg "bucket")

/-- Calling `HttpBackendArgs(address, ...)`. -/
def HttpBackendArgs.call (address : Option PyValue)
    (update_method lock_address lock_method unlock_address unlock_method
     username password skip_cert_validation workspace : PyValue) :
    Except PyError BackendArgs :=
  match address with
  | some a =>
      .ok (.http [("address", a), ("update_method", update_method),
        ("lock_address", lock_address), ("lock_method", lock_method),
        ("unlock_address", unlock_address), ("unlock_method", unlock_method),
        ("username", username), ("password", password),
        ("skip_cert_validation", skip_cert_validation),
        ("workspace", workspace)])
  | Option.none => .error (missingArg "address")

/-- Calling `LocalBackendArgs(path)`. -/
def LocalBackendArgs.call (path : Option PyValue) : Except PyError BackendArgs :=
  match path with
  | some p => .ok (.localBackend [("path", p)])
  | Option.none => .error (missingArg "path")

/-- Calling `MantaBackendArgs(account, ...)`. -/
def MantaBackendArgs.call (account : Option PyValue)
    (user url key_material key_id path insecure_skip_tls_verify
     workspace : PyValue) : Except PyError BackendArgs :=
  match account with
  | some a =>
      .ok (.manta [("account", a), ("user", user), ("url", url),
        ("key_material", key_material), ("key_id", key_id), ("path", path),
        ("insecure_skip_tls_verify", insecure_skip_tls_verify),
        ("workspace", workspace)])
  | Option.none => .error (missingArg "account")

/-- Calling `PostgresBackendArgs(conn_str, ...)`. -/
def PostgresBackendArgs.call (conn_str : Option PyValue)
    (schema_name workspace : PyValue) : Except PyError BackendArgs :=
  match conn_str with
  | some c =>
      .ok (.postgres [("conn_str", c), ("schema_name", schema_name),
        ("workspace", workspace)])
  | Option.none => .error (missingArg "conn_str")

/-- Calling `RemoteBackendArgs(organization, token=None, hostname=None,
workspace_name=None, workspace_prefix=None)`.  The body validates: a falsy
`organization` raises, setting both workspace options raises, setting neither
raises; the two workspace options are stored in a nested `workspaces`
dictionary.  `wn` and `wp` stand for the Python parameters `workspace_name`
and `workspace_prefix`. -/
def RemoteBackendArgs.call (organization : Option PyValue)
    (token hostname wn wp : PyValue) : Except PyError BackendArgs :=
  match organization with
  | Option.none => .error (missingArg "organization")
  | some org =>
      if !org.truthy then
        .error (.typeError "Missing organization argument")
      else if wn.truthy && wp.truthy then
        .error (.typeError "Only workspace_name or workspace_prefix may be given")
      else if !wn.truthy && !wp.truthy then
        .error (.typeError "Either workspace_name or workspace_prefix is required")
      else
        .ok (.remote [("organization", org), ("token", token),
          ("hostname", hostname),
          ("workspaces", .dict [("workspace_name", wn), ("workspace_prefix", wp)])])

/-- Calling `S3BackendArgs(bucket, key, ...)`. -/
def S3BackendArgs.call (bucket key : Option PyValue)
    (region endpoint access_key secret_key profile shared_credentials_file
     token role_arn external_id session_name wkp iam_endpoint sts_endpoint
     workspace : PyValue) : Except PyError BackendArgs :=
  match bucket, key with
  | some b, some k =>
      .ok (.s3 [("bucket", b), ("key", k), ("region", region),
        ("endpoint", endpoint), ("access_key", access_key),
        ("secret_key", secret_key), ("profile", profile),
        ("shared_credentials_file", shared_credentials_file),
        ("token", token), ("role_arn", role_arn), ("external_id", external_id),
        ("session_name", session_name), ("workspace_key_prefix", wkp),
        ("iam_endpoint", iam_endpoint), ("sts_endpoint", sts_endpoint),
        ("workspace", workspace)])
  | Option.none, _ => .error (missingArg "bucket")
  | _, Option.none => .error (missingArg "key")

/-- Calling `SwiftBackendArgs(auth_url, container, ...)`. -/
def SwiftBackendArgs.call (auth_url container : Option PyValue)
    (username user_id password token region_name tenant_id tenant_name
     domain_id domain_name insecure cacert_file cert key : PyValue) :
    Except PyError BackendArgs :=
  match auth_url, container with
  | some au, some c =>
      .ok (.swift [("auth_url", au), ("container", c), ("username", username),
        ("user_id", user_id), ("password", password), ("token", token),
        ("region_name", region_name), ("tenant_id", tenant_id),
        ("tenant_name", tenant_name), ("domain_id", domain_id),
        ("domain_name", domain_name), ("insecure", insecure),
        ("cacert_file", cacert_file), ("cert", cert), ("key", key)])
  | Option.none, _ => .error (missingArg "auth_url")
  | _, Option.none => .error (missingArg "container")

/-- The test `isinstance(args, ArtifactoryBackendArgs)`. -/
def isArtifactoryBackendArgs : BackendArgs → Bool
  | .artifactory _ => true
  | _ => false

/-- The test `isinstance(args, AzureRMBackendArgs)`. -/
def isAzureRMBackendArgs : BackendArgs → Bool
  | .azurerm _ => true
  | _ => false

/-- The test `isinstance(args, ConsulBackendArgs)`. -/
def isConsulBackendArgs : BackendArgs → Bool
  | .consul _ => true
  | _ => false

/-- The test `isinstance(args, EtcdV2BackendArgs)`. -/
def isEtcdV2BackendArgs : BackendArgs → Bool
  | .etcdv2 _ => true
  | _ => false

/-- The test `isinstance(args, EtcdV3BackendArgs)`. -/
def isEtcdV3BackendArgs : BackendArgs → Bool
  | .etcdv3 _ => true
  | _ => false

/-- The test `isinstance(args, GcsBackendArgs)`. -/
def isGcsBackendArgs : BackendArgs → Bool
  | .gcs _ => true
  | _ => false

/-- The test `isinstance(args, HttpBackendArgs)`. -/
def isHttpBackendArgs : BackendArgs → Bool
  | .http _ => true
  | _ => false

/-- The test `isinstance(args, LocalBackendArgs)`. -/
def isLocalBackendArgs : BackendArgs → Bool
  | .localBackend _ => true
  | _ => false

/-- The test `isinstance(args, MantaBackendArgs)`. -/
def isMantaBackendArgs : BackendArgs → Bool
  | .manta _ => true
  | _ => false

/-- The test `isinstance(args, PostgresBackendArgs)`. -/
def isPostgresBackendArgs : BackendArgs → Bool
  | .postgres _ => true
  | _ => false

/-- The test `isinstance(args, RemoteBackendArgs)`. -/
def isRemoteBackendArgs : BackendArgs → Bool
  | .remote _ => true
  | _ => false

/-- The test `isinstance(args, S3BackendArgs)`. -/
def isS3BackendArgs : BackendArgs → Bool
  | .s3 _ => true
  | _ => false

/-- The test `isinstance(args, SwiftBackendArgs)`. -/
def isSwiftBackendArgs : BackendArgs → Bool
  | .swift _ => true
  | _ => false

/-- The `RemoteStateReference.__VALIDATE_ARGS` registry: backend-kind string to
(validator lambda, expected class name), in source order. -/
def VALIDATE_ARGS : List (String × ((BackendArgs → Bool) × String)) := [
  ("artifactory", (isArtifactoryBackendArgs, "ArtifactoryBackendArgs")),
  ("azurerm", (isAzureRMBackendArgs, "AzureRMBackendArgs")),
  ("consul", (isConsulBackendArgs, "ConsulBackendArgs")),
  ("etcd", (isEtcdV2BackendArgs, "EtcdV2BackendArgs")),
  ("etcdv3", (isEtcdV3BackendArgs, "EtcdV3BackendArgs")),
  ("gcs", (isGcsBackendArgs, "GcsBackendArgs")),
  ("http", (isHttpBackendArgs, "HttpBackendArgs")),
  ("local", (isLocalBackendArgs, "LocalBackendArgs")),
  ("manta", (isMantaBackendArgs, "MantaBackendArgs")),
  ("postgres", (isPostgresBackendArgs, "PostgresBackendArgs")),
  ("remote", (isRemoteBackendArgs, "RemoteBackendArgs")),
  ("s3", (isS3BackendArgs, "S3BackendArgs")),
  ("swift", (isSwiftBackendArgs, "SwiftBackendArgs"))]

/-- Python truthiness of a function object, as tested by line 615's
`if not backend_validate[0]:`.  A function object is always truthy in Python;
the source tests the validator itself rather than its application to `args`. -/
def pyFunctionTruthy (f : BackendArgs → Bool) : Bool :=
  let _ := f
  true

/-- The fields of `pulumi.ResourceOptions` this module touches, as plain data.
Only `id` is written (line 632); the remaining representative fields let the
frame statements say the rest of the object is untouched. -/
structure ResourceOptions where
  id : Option String
  parent : Option String
  protect : Option Bool
  depends_on : List String
  version : Option String
deriving DecidableEq

/-- An empty `pulumi.ResourceOptions()`: every field defaults to `None`/empty. -/
def defaultResourceOptions : ResourceOptions :=
  { id := Option.none, parent := Option.none, protect := Option.none,
    depends_on := [], version := Option.none }

/-- The constructed resource as handed to `pulumi.CustomResource.__init__`:
resource type token, logical name, flattened property dictionary, and the
options object carrying the forced `id`. -/
structure RemoteStateReference where
  typ : String
  urn_name : String
  props : List (String × PyValue)
  opts : ResourceOptions

/-- Embeds `RemoteStateReference.__init__(resource_name, backend_type, args, opts)`.
Checks in source order: empty `resource_name` raises; `args` of Python `None`
is falsy and raises (`Option.none` models passing `None`; a class instance is
always truthy); an unregistered `backend_type` raises; line 615's
`if not backend_validate[0]:` tests the truthiness of the validator function
object itself (see `pyFunctionTruthy`), so its `raise` is unreachable; then
`__props__` starts as `backend_type`/`outputs` entries extended by the
`args.props` items, a fresh or deep-copied options object gets
`id = resource_name`, and `super().__init__` receives everything.  The
`isinstance` checks on `resource_name`, `opts` and `backend_type` cannot fail
in this typed embedding. -/
def mkRemoteStateReference (resource_name : String) (backend_type : String)
    (args : Option BackendArgs) (opts : Option ResourceOptions) :
    Except PyError RemoteStateReference :=
  if resource_name = "" then
    .error (.typeError "Missing resource name argument (for URN creation)")
  else
    match args with
    | Option.none => .error (.typeError "Expected args to be an object")
    | some args =>
      match List.lookup backend_type VALIDATE_ARGS with
      | Option.none =>
          .error (.typeError "Expected a valid backend type as value of backend_type")
      | some backend_validate =>
        if !(pyFunctionTruthy backend_validate.1) then
          .error (.typeError ("Expected args to be an instance of " ++
            backend_validate.2 ++ " when backend_type is " ++ backend_type))
        else
          let props0 : List (String × PyValue) :=
            [("backend_type", .str backend_type), ("outputs", .none)]
          let props := dictExtend props0 args.props
          let base := match opts with
            | Option.none => defaultResourceOptions
            | some o => o
          let opts_with_id := { base with id := some resource_name }
          .ok { typ := "terraform:state:RemoteStateReference",
                urn_name := resource_name, props := props,
                opts := opts_with_id }

/-- Embeds `RemoteStateReference.get_output(name)` observed at resolution time: the
method composes `name` with the resolved `outputs` dictionary through
`pulumi.Output.all(...).apply(lambda args: args[1][args[0]])`; once both are
available the callback evaluates the dictionary subscript
`outputs[name]`, so the resulting output carries its value, or fails with the
callback's `KeyError` when the name is absent. -/
def RemoteStateReference.get_output (outputs : List (String × PyValue))
    (name : String) : Except PyError PyValue :=
  pySubscript outputs name

/-- The table `RemoteStateReference.__SNAKE_TO_CAMEL_CASE_TABLE`: internal (snake_case)
field name to wire (camelCase) field name, transcribed entry for entry. -/
def SNAKE_TO_CAMEL_CASE_TABLE : List (String × String) := [
  ("backend_type", "backendType"),
  ("access_key", "accessKey"),
  ("access_token", "accessToken"),
  ("account", "account"),
  ("address", "address"),
  ("auth_url", "authUrl"),
  ("bucket", "bucket"),
  ("ca_file", "caFile"),
  ("cacert_file", "cacertFile"),
  ("cacert_path", "cacertPath"),
  ("cert", "cert"),
  ("cert_file", "certFile"),
  ("cert_path", "certPath"),
  ("client_id", "clientId"),
  ("client_secret", "clientSecret"),
  ("conn_str", "connStr"),
  ("container", "container"),
  ("container_name", "containerName"),
  ("credentials", "credentials"),
  ("datacenter", "datacenter"),
  ("domain_id", "domainId"),
  ("domain_name", "domainName"),
  ("encryption_key", "encryptionKey"),
  ("endpoint", "endpoint"),
  ("endpoints", "endpoints"),
  ("environment", "environment"),
  ("external_id", "externalId"),
  ("gzip", "gzip"),
  ("hostname", "hostname"),
  ("http_auth", "http_auth"),
  ("iam_endpoint", "iamEndpoint"),
  ("insecure", "insecure"),
  ("insecure_skip_tls_verify", "insecureSkipTlsVerify"),
  ("key", "key"),
  ("key_file", "keyFile"),
  ("key_id", "keyId"),
  ("key_material", "keyMaterial"),
  ("key_path", "keyPath"),
  ("lock_address", "lockAddress"),
  ("lock_method", "lockMethod"),
  ("msi_endpoint", "msiEndpoint"),
  ("organization", "organization"),
  ("outputs", "outputs"),
  ("password", "password"),
  ("path", "path"),
  ("prefix", "prefix"),
  ("profile", "profile"),
  ("region", "region"),
  ("region_name", "regionName"),
  ("repo", "repo"),
  ("resource_group_name", "resourceGroupName"),
  ("role_arn", "roleArn"),
  ("sas_token", "sasToken"),
  ("schema_name", "schemaName"),
  ("scheme", "scheme"),
  ("secret_key", "secretKey"),
  ("session_name", "sessionName"),
  ("shared_credentials_file", "sharedCredentialsFile"),
  ("skip_cert_validation", "skipCertValidation"),
  ("storage_account_name", "storageAccountName"),
  ("sts_endpoint", "stsEndpoint"),
  ("subpath", "subpath"),
  ("subscription_id", "subscriptionId"),
  ("tenant_id", "tenantId"),
  ("tenant_name", "tenantName"),
  ("token", "token"),
  ("unlock_address", "unlockAddress"),
  ("unlock_method", "unlockMethod"),
  ("update_method", "updateMethod"),
  ("url", "url"),
  ("use_msi", "useMsi"),
  ("user", "user"),
  ("user_id", "userId"),
  ("username", "username"),
  ("workspace", "workspace"),
  ("workspace_key_prefix", "workspaceKeyPrefix"),
  ("workspace_name", "workspaceName"),
  ("workspace_prefix", "workspacePrefix")]

/-- The table `RemoteStateReference.__CAMEL_TO_SNAKE_CASE_TABLE`: wire (camelCase) field
name to internal (snake_case) field name, transcribed entry for entry. -/
def CAMEL_TO_SNAKE_CASE_TABLE : List (String × String) := [
  ("backendType", "backend_type"),
  ("accessKey", "access_key"),
  ("accessToken", "access_token"),
  ("account", "account"),
  ("address", "address"),
  ("authUrl", "auth_url"),
  ("bucket", "bucket"),
  ("caFile", "ca_file"),
  ("cacertFile", "cacert_file"),
  ("cacertPath", "cacert_path"),
  ("cert", "cert"),
  ("certFile", "cert_file"),
  ("certPath", "cert_path"),
  ("clientId", "client_id"),
  ("clientSecret", "client_secret"),
  ("connStr", "conn_str"),
  ("container", "container"),
  ("containerName", "container_name"),
  ("credentials", "credentials"),
  ("datacenter", "datacenter"),
  ("domainId", "domain_id"),
  ("domainName", "domain_name"),
  ("encryptionKey", "encryption_key"),
  ("endpoint", "endpoint"),
  ("endpoints", "endpoints"),
  ("environment", "environment"),
  ("externalId", "external_id"),
  ("gzip", "gzip"),
  ("hostname", "hostname"),
  ("http_auth", "http_auth"),
  ("iamEndpoint", "iam_endpoint"),
  ("insecure", "insecure"),
  ("insecureSkipTlsVerify", "insecure_skip_tls_verify"),
  ("key", "key"),
  ("keyFile", "key_file"),
  ("keyId", "key_id"),
  ("keyMaterial", "key_material"),
  ("keyPath", "key_path"),
  ("lockAddress", "lock_address"),
  ("lockMethod", "lock_method"),
  ("msiEndpoint", "msi_endpoint"),
  ("organization", "organization"),
  ("outputs", "outputs"),
  ("password", "password"),
  ("path", "path"),
  ("prefix", "prefix"),
  ("profile", "profile"),
  ("region", "region"),
  ("regionName", "region_name"),
  ("repo", "repo"),
  ("resourceGroupName", "resource_group_name"),
  ("roleArn", "role_arn"),
  ("sasToken", "sas_token"),
  ("schemaName", "schema_name"),
  ("scheme", "scheme"),
  ("secretKey", "secret_key"),
  ("sessionName", "session_name"),
  ("sharedCredentialsFile", "shared_credentials_file"),
  ("skipCertValidation", "skip_cert_validation"),
  ("storageAccountName", "storage_account_name"),
  ("stsEndpoint", "sts_endpoint"),
  ("subpath", "subpath"),
  ("subscriptionId", "subscription_id"),
  ("tenantId", "tenant_id"),
  ("tenantName", "tenant_name"),
  ("token", "token"),
  ("unlockAddress", "unlock_address"),
  ("unlockMethod", "unlock_method"),
  ("updateMethod", "update_method"),
  ("url", "url"),
  ("useMsi", "use_msi"),
  ("user", "user"),
  ("userId", "user_id"),
  ("username", "username"),
  ("workspace", "workspace"),
  ("workspaceKeyPrefix", "workspace_key_prefix"),
  ("workspaceName", "workspace_name"),
  ("workspacePrefix", "workspace_prefix")]

/-- Python `x or y` for `x` a dictionary `get` result: the looked-up value
when present and truthy (a non-empty string), else `y`. -/
def pyGetOr (x : Option String) (y : String) : String :=
  match x with
  | some s => if s = "" then y else s
  | Option.none => y

/-- Embeds `RemoteStateReference.translate_output_property(prop)`:
`__CAMEL_TO_SNAKE_CASE_TABLE.get(prop) or prop`. -/
def translate_output_property (prop : String) : String :=
  pyGetOr (List.lookup prop CAMEL_TO_SNAKE_CASE_TABLE) prop

/-- Embeds `RemoteStateReference.translate_input_property(prop)`:
`__SNAKE_TO_CAMEL_CASE_TABLE.get(prop) or prop`. -/
def translate_input_property (prop : String) : String :=
  pyGetOr (List.lookup prop SNAKE_TO_CAMEL_CASE_TABLE) prop

/-- An object store for `pulumi.ResourceOptions` objects: references are list
indices, mutation is `List.set`.  Used to state frame properties of the
options handling in `RemoteStateReference.__init__` (lines 627-632). -/
abbrev OptionsStore := List ResourceOptions

/-- Embeds `copy.deepcopy` on a `ResourceOptions` object duplicates the object graph;
the duplicate's field values equal the source's. -/
def deepcopyOptions (o : ResourceOptions) : ResourceOptions := o

/-- Lines 627-632 of `RemoteStateReference.__init__` under object semantics:
`opts_with_id = pulumi.ResourceOptions()` when `opts is None`, else
`opts_with_id = copy.deepcopy(opts)` — both allocate a fresh object — followed
by the attribute assignment `opts_with_id.id = resource_name`, a mutation of
the freshly allocated object.  Returns the store after both steps and the
reference to `opts_with_id`. -/
def forceReadOptions (store : OptionsStore) (opts : Option Nat)
    (resource_name : String) : OptionsStore × Nat :=
  let allocated := match opts with
    | Option.none => defaultResourceOptions
    | some p => deepcopyOptions (store.getD p defaultResourceOptions)
  let r := store.length
  let store1 := store ++ [allocated]
  let mutated := { store1.getD r defaultResourceOptions with id := some resource_name }
  (store1.set r mutated, r)

/-! ## Helper lemmas -/

theorem lookup_pair_append (k : String) (d e : List (String × PyValue)) :
    List.lookup k (d ++ e) = ((List.lookup k d).orElse (fun _ => List.lookup k e)) := by
  induction d with
  | nil => simp [List.lookup]
  | cons hd tl ih =>
      obtain ⟨k', v'⟩ := hd
      by_cases h : k = k'
      · subst h
        simp [List.lookup]
      · have hb : (k == k') = false := beq_eq_false_iff_ne.mpr h
        simp [List.lookup, hb, ih]

theorem dictSet_of_absent (d : List (String × PyValue)) (k : String) (v : PyValue)
    (h : List.lookup k d = Option.none) : dictSet d k v = d ++ [(k, v)] := by
  simp [dictSet, h]

theorem dictExtend_of_fresh (l d : List (String × PyValue))
    (hfresh : ∀ p ∈ l, List.lookup p.1 d = Option.none)
    (hnodup : (l.map Prod.fst).Nodup) : dictExtend d l = d ++ l := by
  induction l generalizing d with
  | nil => simp [dictExtend]
  | cons hd tl ih =>
      obtain ⟨k, v⟩ := hd
      have hk : List.lookup k d = Option.none := hfresh (k, v) (by simp)
      rw [List.map_cons] at hnodup
      have hnd := List.nodup_cons.mp hnodup
      rw [dictExtend, dictSet_of_absent d k v hk, ih]
      · simp
      · intro p hp
        have hpd : List.lookup p.1 d = Option.none := hfresh p (by simp [hp])
        have hpk : (p.1 == k) = false := by
          refine beq_eq_false_iff_ne.mpr ?_
          intro hEq
          have hmem : p.1 ∈ tl.map Prod.fst := List.mem_map_of_mem Prod.fst hp
          exact hnd.1 (hEq ▸ hmem)
        rw [lookup_pair_append]
        simp [hpd, List.lookup, hpk]
      · exact hnd.2

/-! ## Claim theorems -/

/-- C9: constructing a `RemoteStateReference` with an empty `resource_name`
fails with the missing-resource-name `TypeError`, for every backend kind and
args value — also invalid ones — because that check is the first statement of
`__init__`. -/
theorem empty_resource_name_rejected_first (backend_type : String)
    (args : Option BackendArgs) (opts : Option ResourceOptions) :
    mkRemoteStateReference "" backend_type args opts =
      .error (.typeError "Missing resource name argument (for URN creation)") := by
  rfl

/-- C1: evaluating the constructor at a mismatched pairing — `backend_type`
`"s3"` with a `LocalBackendArgs` — succeeds instead of raising the intended
instance-mismatch `TypeError`: line 615 tests `not backend_validate[0]`, the
truthiness of the validator function object, instead of calling it on `args`,
so the mismatch branch is unreachable. -/
theorem mismatched_backend_args_accepted :
    mkRemoteStateReference "res" "s3"
        (some (.localBackend [("path", .str "p")])) Option.none =
      .ok { typ := "terraform:state:RemoteStateReference", urn_name := "res",
            props := [("backend_type", .str "s3"), ("outputs", .none),
                      ("path", .str "p")],
            opts := { defaultResourceOptions with id := some "res" } } := by
  rfl

/-- C2 counterexample: `get_output` after resolution with the mapping
`x ↦ 42`, asked for the absent name `missing`, fails with a `KeyError`
instead of resolving to an absent value. -/
theorem get_output_missing_name_errors :
    RemoteStateReference.get_output [("x", .int 42)] "missing" =
      .error (.keyError "missing") := by
  rfl

/-- C2 amended: for every resolved outputs mapping and every name absent from
it, `get_output` fails with a `KeyError` for that name (the `apply` callback's
dictionary subscript raises), rather than resolving to an absent value. -/
theorem get_output_absent_name_raises_key_error
    (outputs : List (String × PyValue)) (name : String)
    (h : List.lookup name outputs = Option.none) :
    RemoteStateReference.get_output outputs name = .error (.keyError name) := by
  simp [RemoteStateReference.get_output, pySubscript, h]

theorem get_output_absent_name_raises_key_error_witness :
    List.lookup "missing" [("x", PyValue.int 42)] = Option.none ∧
    RemoteStateReference.get_output [("x", PyValue.int 42)] "missing" =
      .error (.keyError "missing") :=
  ⟨rfl, get_output_absent_name_raises_key_error [("x", PyValue.int 42)] "missing" rfl⟩

/-- C4 counterexample: `S3BackendArgs` constructed with `bucket=""` and
`key=""` — empty required fields — succeeds; no constructor except
`RemoteBackendArgs` checks field values. -/
theorem s3_empty_required_fields_accepted :
    S3BackendArgs.call (some (.str "")) (some (.str "")) .none .none .none
        .none .none .none .none .none .none .none .none .none .none .none =
      .ok (.s3 [("bucket", .str ""), ("key", .str ""), ("region", .none),
        ("endpoint", .none), ("access_key", .none), ("secret_key", .none),
        ("profile", .none), ("shared_credentials_file", .none),
        ("token", .none), ("role_arn", .none), ("external_id", .none),
        ("session_name", .none), ("workspace_key_prefix", .none),
        ("iam_endpoint", .none), ("sts_endpoint", .none),
        ("workspace", .none)]) := by
  rfl

/-- C4 amended: required parameters must be supplied at the call — omitting
`key` for `S3BackendArgs` (for any `bucket` and optional arguments) or `path`
for `LocalBackendArgs` raises a `TypeError` from the calling convention — but
values are never checked for emptiness: `S3BackendArgs` succeeds for every
supplied `bucket` and `key` value, empty strings included. -/
theorem required_args_presence_checked_emptiness_not :
    (∀ (bucket : PyValue) (region endpoint access_key secret_key profile
        shared_credentials_file token role_arn external_id session_name wkp
        iam_endpoint sts_endpoint workspace : PyValue),
      S3BackendArgs.call (some bucket) Option.none region endpoint access_key
          secret_key profile shared_credentials_file token role_arn external_id
          session_name wkp iam_endpoint sts_endpoint workspace =
        .error (missingArg "key")) ∧
    (LocalBackendArgs.call Option.none = .error (missingArg "path")) ∧
    (∀ (bucket key : PyValue) (region endpoint access_key secret_key profile
        shared_credentials_file token role_arn external_id session_name wkp
        iam_endpoint sts_endpoint workspace : PyValue),
      S3BackendArgs.call (some bucket) (some key) region endpoint access_key
          secret_key profile shared_credentials_file token role_arn external_id
          session_name wkp iam_endpoint sts_endpoint workspace =
        .ok (.s3 [("bucket", bucket), ("key", key), ("region", region),
          ("endpoint", endpoint), ("access_key", access_key),
          ("secret_key", secret_key), ("profile", profile),
          ("shared_credentials_file", shared_credentials_file),
          ("token", token), ("role_arn", role_arn),
          ("external_id", external_id), ("session_name", session_name),
          ("workspace_key_prefix", wkp), ("iam_endpoint", iam_endpoint),
          ("sts_endpoint", sts_endpoint), ("workspace", workspace)])) := by
  refine ⟨?_, rfl, ?_⟩ <;> (intros; rfl)

/-- C6: with a truthy `organization`, `RemoteBackendArgs` fails when both
workspace options are set (truthy), fails when neither is, and succeeds with
the nested `workspaces` dictionary when exactly one is set. -/
theorem remote_backend_args_workspace_exclusive
    (org token hostname wn wp : PyValue) (horg : org.truthy = true) :
    ((wn.truthy = true ∧ wp.truthy = true) →
      RemoteBackendArgs.call (some org) token hostname wn wp =
        .error (.typeError "Only workspace_name or workspace_prefix may be given")) ∧
    ((wn.truthy = false ∧ wp.truthy = false) →
      RemoteBackendArgs.call (some org) token hostname wn wp =
        .error (.typeError "Either workspace_name or workspace_prefix is required")) ∧
    (wn.truthy ≠ wp.truthy →
      RemoteBackendArgs.call (some org) token hostname wn wp =
        .ok (.remote [("organization", org), ("token", token),
          ("hostname", hostname),
          ("workspaces", .dict [("workspace_name", wn),
                                ("workspace_prefix", wp)])])) := by
  refine ⟨?_, ?_, ?_⟩
  · rintro ⟨h1, h2⟩
    simp [RemoteBackendArgs.call, horg, h1, h2]
  · rintro ⟨h1, h2⟩
    simp [RemoteBackendArgs.call, horg, h1, h2]
  · intro hne
    cases hwn : wn.truthy <;> cases hwp : wp.truthy <;>
      simp_all [RemoteBackendArgs.call]

theorem remote_backend_args_workspace_exclusive_witness :
    RemoteBackendArgs.call (some (.str "org")) .none .none (.str "w") .none =
      .ok (.remote [("organization", .str "org"), ("token", .none),
        ("hostname", .none),
        ("workspaces", .dict [("workspace_name", .str "w"),
                              ("workspace_prefix", .none)])]) :=
  (remote_backend_args_workspace_exclusive (.str "org") .none .none
    (.str "w") .none (by decide)).2.2 (by decide)

theorem lookup_validate_args_none (bt : String)
    (h : bt ∉ (["artifactory", "azurerm", "consul", "etcd", "etcdv3", "gcs",
      "http", "local", "manta", "postgres", "remote", "s3", "swift"] :
      List String)) : List.lookup bt VALIDATE_ARGS = Option.none := by
  simp only [List.mem_cons, not_or] at h
  obtain ⟨h1, h2, h3, h4, h5, h6, h7, h8, h9, h10, h11, h12, h13, -⟩ := h
  simp [VALIDATE_ARGS, List.lookup, beq_eq_false_iff_ne.mpr h1,
    beq_eq_false_iff_ne.mpr h2, beq_eq_false_iff_ne.mpr h3,
    beq_eq_false_iff_ne.mpr h4, beq_eq_false_iff_ne.mpr h5,
    beq_eq_false_iff_ne.mpr h6, beq_eq_false_iff_ne.mpr h7,
    beq_eq_false_iff_ne.mpr h8, beq_eq_false_iff_ne.mpr h9,
    beq_eq_false_iff_ne.mpr h10, beq_eq_false_iff_ne.mpr h11,
    beq_eq_false_iff_ne.mpr h12, beq_eq_false_iff_ne.mpr h13]

/-- C5: for every non-empty resource name, every args value and every options
value, a `backend_type` outside the 13 registered kinds makes the constructor
fail with the invalid-backend-type `TypeError`; no default backend is
substituted. -/
theorem unknown_backend_type_rejected (resource_name bt : String)
    (args : BackendArgs) (opts : Option ResourceOptions)
    (hname : resource_name ≠ "")
    (hbt : bt ∉ (["artifactory", "azurerm", "consul", "etcd", "etcdv3", "gcs",
      "http", "local", "manta", "postgres", "remote", "s3", "swift"] :
      List String)) :
    mkRemoteStateReference resource_name bt (some args) opts =
      .error (.typeError "Expected a valid backend type as value of backend_type") := by
  simp [mkRemoteStateReference, hname, lookup_validate_args_none bt hbt]

theorem unknown_backend_type_rejected_witness :
    mkRemoteStateReference "res" "not-a-backend"
        (some (.localBackend [("path", .str "p")])) Option.none =
      .error (.typeError "Expected a valid backend type as value of backend_type") :=
  unknown_backend_type_rejected "res" "not-a-backend"
    (.localBackend [("path", .str "p")]) Option.none (by decide) (by decide)

/-- C3: for every entry of the snake-to-camel table, translating to the wire
name and back is the identity; symmetrically for every entry of the
camel-to-snake table; and every name absent from a table passes through the
corresponding translation unchanged. -/
theorem translate_tables_mutually_inverse :
    (∀ (k v : String), (k, v) ∈ SNAKE_TO_CAMEL_CASE_TABLE →
      translate_output_property (translate_input_property k) = k) ∧
    (∀ (k v : String), (k, v) ∈ CAMEL_TO_SNAKE_CASE_TABLE →
      translate_input_property (translate_output_property k) = k) ∧
    (∀ p : String, List.lookup p SNAKE_TO_CAMEL_CASE_TABLE = Option.none →
      translate_input_property p = p) ∧
    (∀ p : String, List.lookup p CAMEL_TO_SNAKE_CASE_TABLE = Option.none →
      translate_output_property p = p) := by
  refine ⟨?_, ?_, ?_, ?_⟩
  · have h : ∀ kv ∈ SNAKE_TO_CAMEL_CASE_TABLE,
        translate_output_property (translate_input_property kv.1) = kv.1 := by
      decide
    intro k v hkv
    exact h (k, v) hkv
  · have h : ∀ kv ∈ CAMEL_TO_SNAKE_CASE_TABLE,
        translate_input_property (translate_output_property kv.1) = kv.1 := by
      decide
    intro k v hkv
    exact h (k, v) hkv
  · intro p hp
    simp [translate_input_property, pyGetOr, hp]
  · intro p hp
    simp [translate_output_property, pyGetOr, hp]

theorem translate_tables_mutually_inverse_witness :
    (("access_key", "accessKey") ∈ SNAKE_TO_CAMEL_CASE_TABLE ∧
      translate_output_property (translate_input_property "access_key") =
        "access_key") ∧
    (("workspaceName", "workspace_name") ∈ CAMEL_TO_SNAKE_CASE_TABLE ∧
      translate_input_property (translate_output_property "workspaceName") =
        "workspaceName") ∧
    (List.lookup "unknown_field" SNAKE_TO_CAMEL_CASE_TABLE = Option.none ∧
      translate_input_property "unknown_field" = "unknown_field") :=
  ⟨⟨by decide,
    translate_tables_mutually_inverse.1 "access_key" "accessKey" (by decide)⟩,
   ⟨by decide,
    translate_tables_mutually_inverse.2.1 "workspaceName" "workspace_name"
      (by decide)⟩,
   ⟨by decide,
    translate_tables_mutually_inverse.2.2.1 "unknown_field" rfl⟩⟩

/-- C7: the registry's (kind, expected-class-name) pairs are exactly the 13
registered entries in order — so no other kind is registered — its validators
are exactly the 13 `isinstance` tests in matching order, and each such test
accepts precisely the args values of the variant bearing the paired class name
(`etcd` pairs with `EtcdV2BackendArgs`, `etcdv3` with `EtcdV3BackendArgs`,
and so on). -/
theorem validate_args_registry_exact :
    VALIDATE_ARGS.map (fun e => (e.1, e.2.2)) =
      [("artifactory", "ArtifactoryBackendArgs"),
       ("azurerm", "AzureRMBackendArgs"),
       ("consul", "ConsulBackendArgs"),
       ("etcd", "EtcdV2BackendArgs"),
       ("etcdv3", "EtcdV3BackendArgs"),
       ("gcs", "GcsBackendArgs"),
       ("http", "HttpBackendArgs"),
       ("local", "LocalBackendArgs"),
       ("manta", "MantaBackendArgs"),
       ("postgres", "PostgresBackendArgs"),
       ("remote", "RemoteBackendArgs"),
       ("s3", "S3BackendArgs"),
       ("swift", "SwiftBackendArgs")] ∧
    VALIDATE_ARGS.map (fun e => e.2.1) =
      [isArtifactoryBackendArgs, isAzureRMBackendArgs, isConsulBackendArgs,
       isEtcdV2BackendArgs, isEtcdV3BackendArgs, isGcsBackendArgs,
       isHttpBackendArgs, isLocalBackendArgs, isMantaBackendArgs,
       isPostgresBackendArgs, isRemoteBackendArgs, isS3BackendArgs,
       isSwiftBackendArgs] ∧
    (∀ args : BackendArgs,
      (isArtifactoryBackendArgs args = true ↔
        args.className = "ArtifactoryBackendArgs") ∧
      (isAzureRMBackendArgs args = true ↔
        args.className = "AzureRMBackendArgs") ∧
      (isConsulBackendArgs args = true ↔
        args.className = "ConsulBackendArgs") ∧
      (isEtcdV2BackendArgs args = true ↔
        args.className = "EtcdV2BackendArgs") ∧
      (isEtcdV3BackendArgs args = true ↔
        args.className = "EtcdV3BackendArgs") ∧
      (isGcsBackendArgs args = true ↔ args.className = "GcsBackendArgs") ∧
      (isHttpBackendArgs args = true ↔ args.className = "HttpBackendArgs") ∧
      (isLocalBackendArgs args = true ↔ args.className = "LocalBackendArgs") ∧
      (isMantaBackendArgs args = true ↔ args.className = "MantaBackendArgs") ∧
      (isPostgresBackendArgs args = true ↔
        args.className = "PostgresBackendArgs") ∧
      (isRemoteBackendArgs args = true ↔
        args.className = "RemoteBackendArgs") ∧
      (isS3BackendArgs args = true ↔ args.className = "S3BackendArgs") ∧
      (isSwiftBackendArgs args = true ↔
        args.className = "SwiftBackendArgs")) := by
  refine ⟨rfl, rfl, ?_⟩
  intro args
  cases args <;>
    simp [isArtifactoryBackendArgs, isAzureRMBackendArgs, isConsulBackendArgs,
      isEtcdV2BackendArgs, isEtcdV3BackendArgs, isGcsBackendArgs,
      isHttpBackendArgs, isLocalBackendArgs, isMantaBackendArgs,
      isPostgresBackendArgs, isRemoteBackendArgs, isS3BackendArgs,
      isSwiftBackendArgs, BackendArgs.className]

/-- C8: whenever construction succeeds, the property set handed to
`pulumi.CustomResource.__init__` is exactly the `backend_type = backendKind`
entry, the unresolved `outputs` slot, then the flattened `args.props` entries
(provided the variant's keys, which never include `backend_type` or
`outputs`, are distinct); the options object's `id` is forced to
`resource_name` and the logical name passed on is `resource_name`, so
resolution is a read-only lookup keyed by the resource name. -/
theorem constructed_props_and_forced_id (resource_name backend_type : String)
    (args : BackendArgs) (opts : Option ResourceOptions)
    (r : RemoteStateReference)
    (hkeys : ∀ p ∈ args.props, p.1 ≠ "backend_type" ∧ p.1 ≠ "outputs")
    (hnodup : (args.props.map Prod.fst).Nodup)
    (hok : mkRemoteStateReference resource_name backend_type (some args) opts =
      .ok r) :
    r.props = ("backend_type", PyValue.str backend_type) ::
      ("outputs", PyValue.none) :: args.props ∧
    r.opts.id = some resource_name ∧
    r.urn_name = resource_name ∧
    r.typ = "terraform:state:RemoteStateReference" := by
  have hext : dictExtend
      [("backend_type", PyValue.str backend_type), ("outputs", PyValue.none)]
      args.props =
      ("backend_type", PyValue.str backend_type) ::
        ("outputs", PyValue.none) :: args.props := by
    rw [dictExtend_of_fresh args.props _ ?_ hnodup]
    · rfl
    · intro p hp
      have h := hkeys p hp
      simp [List.lookup, beq_eq_false_iff_ne.mpr h.1,
        beq_eq_false_iff_ne.mpr h.2]
  have hname : resource_name ≠ "" := by
    intro h
    rw [h] at hok
    exact absurd hok (by simp [mkRemoteStateReference])
  cases hlk : List.lookup backend_type VALIDATE_ARGS with
  | none =>
      rw [mkRemoteStateReference.eq_def, if_neg hname] at hok
      simp only [hlk] at hok
      exact absurd hok (by simp)
  | some bv =>
      rw [mkRemoteStateReference.eq_def, if_neg hname] at hok
      simp only [hlk, pyFunctionTruthy, Bool.not_true, Bool.false_eq_true,
        if_false] at hok
      injection hok with hok
      subst hok
      exact ⟨hext, rfl, rfl, rfl⟩

theorem constructed_props_and_forced_id_witness :
    (({ typ := "terraform:state:RemoteStateReference", urn_name := "res",
        props := [("backend_type", PyValue.str "local"),
                  ("outputs", PyValue.none), ("path", PyValue.str "p")],
        opts := { defaultResourceOptions with id := some "res" } } :
        RemoteStateReference).props =
      ("backend_type", PyValue.str "local") :: ("outputs", PyValue.none) ::
        (BackendArgs.localBackend [("path", PyValue.str "p")]).props) ∧
    ({ defaultResourceOptions with id := some "res" } :
        ResourceOptions).id = some "res" ∧
    ("res" : String) = "res" ∧
    ("terraform:state:RemoteStateReference" : String) =
      "terraform:state:RemoteStateReference" :=
  constructed_props_and_forced_id "res" "local"
    (.localBackend [("path", PyValue.str "p")]) Option.none
    { typ := "terraform:state:RemoteStateReference", urn_name := "res",
      props := [("backend_type", PyValue.str "local"),
                ("outputs", PyValue.none), ("path", PyValue.str "p")],
      opts := { defaultResourceOptions with id := some "res" } }
    (by intro p hp; simp [BackendArgs.props] at hp; simp [hp])
    (by simp [BackendArgs.props])
    (by rfl)

/-- C10: constructing a reference never mutates the caller's options object:
the forced `id` is assigned on a deep copy (or a fresh object when no options
were passed), so in the object store the caller's entry is unchanged, the
mutated object is a distinct reference, and that fresh object is the caller's
field values with `id` set to the resource name. -/
theorem caller_opts_not_mutated (store : OptionsStore) (p : Nat)
    (name : String) (hp : p < store.length) :
    ((forceReadOptions store (some p) name).1)[p]? = store[p]? ∧
    (forceReadOptions store (some p) name).2 ≠ p ∧
    ((forceReadOptions store (some p) name).1)[
        (forceReadOptions store (some p) name).2]? =
      some { store.getD p defaultResourceOptions with id := some name } := by
  have hlen : p ≠ store.length := Nat.ne_of_lt hp
  refine ⟨?_, ?_, ?_⟩
  · rw [forceReadOptions]
    simp only
    rw [List.getElem?_set_ne (fun h => hlen h.symm),
      List.getElem?_append_left hp]
  · simpa [forceReadOptions] using fun h => hlen h.symm
  · rw [forceReadOptions]
    simp only
    have hget : (store ++ [deepcopyOptions (store.getD p defaultResourceOptions)]).getD
        store.length defaultResourceOptions =
        deepcopyOptions (store.getD p defaultResourceOptions) := by
      simp [List.getD, List.getElem?_concat_length]
    rw [List.getElem?_set_eq_of_lt _ (by simp), hget]
    rfl

theorem caller_opts_not_mutated_witness :
    (0 : Nat) < ([{ defaultResourceOptions with protect := some true }] :
      OptionsStore).length ∧
    ((forceReadOptions [{ defaultResourceOptions with protect := some true }]
        (some 0) "nm").1)[0]? =
      ([{ defaultResourceOptions with protect := some true }] :
        OptionsStore)[0]? :=
  ⟨by decide,
   (caller_opts_not_mutated
     [{ defaultResourceOptions with protect := some true }] 0 "nm"
     (by decide)).1⟩
